import Mathlib

/-!
# TerraInsight — verification of scoring, alerting and storage logic

Shallow embedding of the TerraInsight backend:

* `src/server/services/livabilityCalculator.ts` — weighted livability score
  (weights, bucket normalizers, rounding, category bands);
* the alert service (`AlertService`) — threshold alerts for air quality,
  water security and green space;
* the storage layer (`DatabaseStorage`) — bounding-box queries ordered by
  timestamp descending, recent-window filtering;
* the HTTP route handlers for livability computation and alert dismissal.

JavaScript numbers are modelled as rationals (`ℚ`); for the normalizers,
whose behaviour on non-finite inputs matters, a dedicated `JSNum` type with
`nan` / `posInf` / `negInf` constructors models IEEE comparison semantics
(every comparison involving NaN is false).  Optional numeric fields are
`Option ℚ`; the JavaScript `x || y` fallback (which also falls through on
the falsy value `0`) is `jsOr`.  Display-only strings built by template
interpolation (`message`, `location` labels) and fields used only inside
the OpenAI recommendation prompts (`pm25`, `ozone`, `groundwaterLevel`, …)
are not modelled; the `recommendations` payload comes from an external
language-model call with a static fallback and is likewise not modelled.
-/

namespace TerraInsight

/-- A JavaScript `number` as seen by the normalizer comparisons:
either finite (a rational) or one of the non-finite values. -/
inductive JSNum where
  | nan
  | posInf
  | negInf
  | fin (q : ℚ)
deriving DecidableEq

/-- JavaScript `a <= b` on numbers: false whenever NaN is involved,
`-∞ <= x` and `x <= +∞` otherwise, and the rational order on finite values. -/
def JSNum.jle : JSNum → JSNum → Bool
  | nan, _ => false
  | _, nan => false
  | negInf, _ => true
  | _, posInf => true
  | posInf, _ => false
  | _, negInf => false
  | fin a, fin b => decide (a ≤ b)

/-- JavaScript `a >= b` is `b <= a` (both are false when NaN is involved). -/
def JSNum.jge (a b : JSNum) : Bool := JSNum.jle b a

/-- Factor weights of the livability calculator (`LiveabilityCalculator.weights`). -/
structure Weights where
  airQuality : ℚ
  waterSecurity : ℚ
  greenSpace : ℚ

/-- `weights` from livabilityCalculator.ts: 40% air, 35% water, 25% green. -/
def weights : Weights :=
  { airQuality := 0.4
    waterSecurity := 0.35
    greenSpace := 0.25 }

/-- One band of reference values used by a normalizer. -/
structure RefBand where
  excellent : ℚ
  good : ℚ
  moderate : ℚ
  poor : ℚ
  veryPoor : ℚ

/-- `referenceValues` grouped per metric. -/
structure ReferenceValues where
  airQuality : RefBand
  waterSecurity : RefBand
  greenSpace : RefBand

/-- `referenceValues` from livabilityCalculator.ts. -/
def referenceValues : ReferenceValues :=
  { airQuality := ⟨0, 50, 100, 200, 300⟩
    waterSecurity := ⟨0, 20, 40, 60, 80⟩
    greenSpace := ⟨80, 60, 40, 20, 10⟩ }

/-- `normalizeAirQuality` — 5-bucket step function, lower AQI is better. -/
def normalizeAirQuality (aqi : JSNum) : ℚ :=
  if aqi.jle (.fin referenceValues.airQuality.excellent) then 100
  else if aqi.jle (.fin referenceValues.airQuality.good) then 85
  else if aqi.jle (.fin referenceValues.airQuality.moderate) then 60
  else if aqi.jle (.fin referenceValues.airQuality.poor) then 35
  else if aqi.jle (.fin referenceValues.airQuality.veryPoor) then 15
  else 5

/-- `normalizeWaterSecurity` — 5-bucket step function, lower stress is better. -/
def normalizeWaterSecurity (stressLevel : JSNum) : ℚ :=
  if stressLevel.jle (.fin referenceValues.waterSecurity.excellent) then 100
  else if stressLevel.jle (.fin referenceValues.waterSecurity.good) then 80
  else if stressLevel.jle (.fin referenceValues.waterSecurity.moderate) then 60
  else if stressLevel.jle (.fin referenceValues.waterSecurity.poor) then 40
  else if stressLevel.jle (.fin referenceValues.waterSecurity.veryPoor) then 20
  else 10

/-- `normalizeGreenSpace` — 5-bucket step function, higher coverage is better. -/
def normalizeGreenSpace (coverage : JSNum) : ℚ :=
  if coverage.jge (.fin referenceValues.greenSpace.excellent) then 100
  else if coverage.jge (.fin referenceValues.greenSpace.good) then 80
  else if coverage.jge (.fin referenceValues.greenSpace.moderate) then 60
  else if coverage.jge (.fin referenceValues.greenSpace.poor) then 40
  else if coverage.jge (.fin referenceValues.greenSpace.veryPoor) then 20
  else 10

/-- JavaScript `Math.round`: round half toward positive infinity. -/
def jround (q : ℚ) : ℤ := (q + 1/2).floor

/-- `Math.round` as a map on rationals. -/
def roundQ (q : ℚ) : ℚ := (jround q : ℚ)

/-- Input metrics of `calculateLivabilityScore`. -/
structure LiveabilityMetrics where
  airQuality : JSNum
  waterSecurity : JSNum
  greenSpace : JSNum

/-- One entry of the `factors` record in a `LiveabilityResult`. -/
structure FactorInfo where
  weight : ℚ
  normalizedValue : ℚ
  contribution : ℚ

/-- The `factors` record of a `LiveabilityResult`. -/
structure Factors where
  airQuality : FactorInfo
  waterSecurity : FactorInfo
  greenSpace : FactorInfo

/-- Result record of `calculateLivabilityScore`. -/
structure LiveabilityResult where
  airQualityScore : ℚ
  waterSecurityScore : ℚ
  greenSpaceScore : ℚ
  overallScore : ℚ
  factors : Factors

/-- `calculateLivabilityScore` from livabilityCalculator.ts. -/
def calculateLivabilityScore (metrics : LiveabilityMetrics) : LiveabilityResult :=
  let airQualityScore := normalizeAirQuality metrics.airQuality
  let waterSecurityScore := normalizeWaterSecurity metrics.waterSecurity
  let greenSpaceScore := normalizeGreenSpace metrics.greenSpace
  let airQualityContribution := airQualityScore * weights.airQuality
  let waterSecurityContribution := waterSecurityScore * weights.waterSecurity
  let greenSpaceContribution := greenSpaceScore * weights.greenSpace
  let overallScore :=
    roundQ (airQualityContribution + waterSecurityContribution + greenSpaceContribution)
  { airQualityScore := roundQ airQualityScore
    waterSecurityScore := roundQ waterSecurityScore
    greenSpaceScore := roundQ greenSpaceScore
    overallScore := overallScore
    factors :=
      { airQuality := ⟨weights.airQuality, airQualityScore, airQualityContribution⟩
        waterSecurity := ⟨weights.waterSecurity, waterSecurityScore, waterSecurityContribution⟩
        greenSpace := ⟨weights.greenSpace, greenSpaceScore, greenSpaceContribution⟩ } }

/-- Result of `getLivabilityCategory`. -/
structure CategoryInfo where
  category : String
  description : String
  color : String
deriving DecidableEq

/-- `getLivabilityCategory` from livabilityCalculator.ts. -/
def getLivabilityCategory (score : ℚ) : CategoryInfo :=
  if 85 ≤ score then
    ⟨"Excellent", "Outstanding environmental conditions", "green"⟩
  else if 70 ≤ score then
    ⟨"Good", "Generally favorable environmental conditions", "lightgreen"⟩
  else if 55 ≤ score then
    ⟨"Moderate", "Acceptable environmental conditions with some concerns", "yellow"⟩
  else if 40 ≤ score then
    ⟨"Poor", "Environmental conditions need improvement", "orange"⟩
  else
    ⟨"Very Poor", "Significant environmental concerns requiring action", "red"⟩

/-! ## Alert service (AlertService in the alert generation source file) -/

/-- Alert type: the service only ever produces `warning` and `danger`
(`info` exists in the schema). -/
inductive AlertType where
  | info
  | warning
  | danger
deriving DecidableEq

/-- Alert category. -/
inductive AlertCategory where
  | air_quality
  | water_security
  | green_space
deriving DecidableEq

/-- One stored air-quality reading.  Secondary pollutant fields
(`pm25`, `pm10`, `ozone`, `no2`, `so2`) appear only inside the OpenAI
prompt text and are not modelled; `timestamp` is an abstract instant. -/
structure AirQualityData where
  latitude : ℚ
  longitude : ℚ
  aqi : ℚ
  timestamp : ℤ
deriving DecidableEq

/-- One stored water-security reading (`precipitationLevel` and
`groundwaterLevel` appear only in prompt text). -/
structure WaterSecurityData where
  latitude : ℚ
  longitude : ℚ
  waterStressLevel : ℚ
  floodRisk : Option ℚ
  timestamp : ℤ
deriving DecidableEq

/-- One stored green-space reading (`greenSpaceType` appears only in
prompt text). -/
structure GreenSpaceData where
  latitude : ℚ
  longitude : ℚ
  ndvi : ℚ
  vegetationCoverage : Option ℚ
  timestamp : ℤ
deriving DecidableEq

/-- `EnvironmentalData` passed to `generateAlerts`.  The three reading
lists are optional in the source; an absent list and an empty list take
the same branch of the `length > 0` guards, so both are `[]` here.  The
`location` label string is display-only and not modelled. -/
structure EnvironmentalData where
  airQuality : List AirQualityData
  waterSecurity : List WaterSecurityData
  greenSpace : List GreenSpaceData
  latitude : Option ℚ
  longitude : Option ℚ
deriving DecidableEq

/-- One alert record (`InsertEnvironmentalAlert`).  The interpolated
`message` / `location` strings and the externally generated
`recommendations` payload are not modelled. -/
structure Alert where
  type : AlertType
  category : AlertCategory
  title : String
  latitude : ℚ
  longitude : ℚ
  severity : ℚ
  isActive : Bool
  actionable : Bool
deriving DecidableEq

/-- JavaScript `x || y` where `x` is an optional number: falls through to
`y` when `x` is absent or equal to the falsy value `0`. -/
def jsOr (x : Option ℚ) (y : ℚ) : ℚ :=
  match x with
  | none => y
  | some v => if v = 0 then y else v

/-- One warning/danger threshold pair. -/
structure AlertThresholdBand where
  warning : ℚ
  danger : ℚ

/-- The four threshold bands of `AlertService.thresholds`. -/
structure AlertThresholds where
  airQuality : AlertThresholdBand
  waterSecurity : AlertThresholdBand
  greenSpace : AlertThresholdBand
  floodRisk : AlertThresholdBand

/-- `AlertService.thresholds` (warning / danger per category). -/
def thresholds : AlertThresholds :=
  { airQuality := ⟨100, 150⟩
    waterSecurity := ⟨60, 80⟩
    greenSpace := ⟨30, 15⟩
    floodRisk := ⟨40, 70⟩ }

/-- `AlertService.analyzeAirQuality`: absolute-level alert on the latest
reading (danger at AQI ≥ 150, else warning at ≥ 100), then an independent
rapid-deterioration warning when at least two readings exist and the
most-recent minus second-most-recent AQI exceeds 50. -/
def analyzeAirQuality (airData : List AirQualityData)
    (context : EnvironmentalData) : List Alert :=
  match airData with
  | [] => []
  | latest :: rest =>
    let levelAlerts : List Alert :=
      if thresholds.airQuality.danger ≤ latest.aqi then
        [{ type := AlertType.danger
           category := AlertCategory.air_quality
           title := "Unhealthy Air Quality Detected"
           latitude := jsOr context.latitude latest.latitude
           longitude := jsOr context.longitude latest.longitude
           severity := min 100 (latest.aqi / thresholds.airQuality.danger * 70)
           isActive := true
           actionable := true }]
      else if thresholds.airQuality.warning ≤ latest.aqi then
        [{ type := AlertType.warning
           category := AlertCategory.air_quality
           title := "Moderate Air Quality Alert"
           latitude := jsOr context.latitude latest.latitude
           longitude := jsOr context.longitude latest.longitude
           severity := min 100 (latest.aqi / thresholds.airQuality.warning * 50)
           isActive := true
           actionable := true }]
      else []
    let deteriorationAlerts : List Alert :=
      match rest with
      | [] => []
      | previous :: _ =>
        let aqiChange := latest.aqi - previous.aqi
        if 50 < aqiChange then
          [{ type := AlertType.warning
             category := AlertCategory.air_quality
             title := "Rapid Air Quality Deterioration"
             latitude := jsOr context.latitude latest.latitude
             longitude := jsOr context.longitude latest.longitude
             severity := min 100 (aqiChange / 50 * 40)
             isActive := true
             actionable := true }]
        else []
    levelAlerts ++ deteriorationAlerts

/-- `AlertService.analyzeWaterSecurity`: water-stress alert on the latest
reading (danger at ≥ 80, else warning at ≥ 60), then an independent flood
risk alert when `floodRisk` is truthy (danger at ≥ 70, else warning at ≥ 40). -/
def analyzeWaterSecurity (waterData : List WaterSecurityData)
    (context : EnvironmentalData) : List Alert :=
  match waterData with
  | [] => []
  | latest :: _ =>
    let stressAlerts : List Alert :=
      if thresholds.waterSecurity.danger ≤ latest.waterStressLevel then
        [{ type := AlertType.danger
           category := AlertCategory.water_security
           title := "Critical Water Stress Level"
           latitude := jsOr context.latitude latest.latitude
           longitude := jsOr context.longitude latest.longitude
           severity := min 100 (latest.waterStressLevel / 100 * 80)
           isActive := true
           actionable := true }]
      else if thresholds.waterSecurity.warning ≤ latest.waterStressLevel then
        [{ type := AlertType.warning
           category := AlertCategory.water_security
           title := "Elevated Water Stress"
           latitude := jsOr context.latitude latest.latitude
           longitude := jsOr context.longitude latest.longitude
           severity := min 100 (latest.waterStressLevel / 100 * 60)
           isActive := true
           actionable := true }]
      else []
    let floodAlerts : List Alert :=
      match latest.floodRisk with
      | none => []
      | some fr =>
        if fr ≠ 0 ∧ thresholds.floodRisk.danger ≤ fr then
          [{ type := AlertType.danger
             category := AlertCategory.water_security
             title := "High Flood Risk Alert"
             latitude := jsOr context.latitude latest.latitude
             longitude := jsOr context.longitude latest.longitude
             severity := min 100 (fr / 100 * 75)
             isActive := true
             actionable := true }]
        else if fr ≠ 0 ∧ thresholds.floodRisk.warning ≤ fr then
          [{ type := AlertType.warning
             category := AlertCategory.water_security
             title := "Moderate Flood Risk"
             latitude := jsOr context.latitude latest.latitude
             longitude := jsOr context.longitude latest.longitude
             severity := min 100 (fr / 100 * 50)
             isActive := true
             actionable := true }]
        else []
    stressAlerts ++ floodAlerts

/-- `AlertService.analyzeGreenSpace`: coverage is
`vegetationCoverage || ndvi * 100` on the latest reading; danger alert at
coverage ≤ 15, else warning at ≤ 30. -/
def analyzeGreenSpace (greenData : List GreenSpaceData)
    (context : EnvironmentalData) : List Alert :=
  match greenData with
  | [] => []
  | latest :: _ =>
    let vegCoverage := jsOr latest.vegetationCoverage (latest.ndvi * 100)
    if vegCoverage ≤ thresholds.greenSpace.danger then
      [{ type := AlertType.danger
         category := AlertCategory.green_space
         title := "Critical Green Space Deficiency"
         latitude := jsOr context.latitude latest.latitude
         longitude := jsOr context.longitude latest.longitude
         severity :=
           min 100 ((thresholds.greenSpace.danger - vegCoverage)
             / thresholds.greenSpace.danger * 70)
         isActive := true
         actionable := true }]
    else if vegCoverage ≤ thresholds.greenSpace.warning then
      [{ type := AlertType.warning
         category := AlertCategory.green_space
         title := "Low Green Space Coverage"
         latitude := jsOr context.latitude latest.latitude
         longitude := jsOr context.longitude latest.longitude
         severity :=
           min 100 ((thresholds.greenSpace.warning - vegCoverage)
             / thresholds.greenSpace.warning * 50)
         isActive := true
         actionable := true }]
    else []

/-- `AlertService.generateAlerts`: run the three analyzers on their
categories (each only when its list is non-empty) and concatenate the
alerts in source order. -/
def generateAlerts (data : EnvironmentalData) : List Alert :=
  (if 0 < data.airQuality.length then analyzeAirQuality data.airQuality data else [])
    ++ (if 0 < data.waterSecurity.length then
          analyzeWaterSecurity data.waterSecurity data
        else [])
    ++ (if 0 < data.greenSpace.length then
          analyzeGreenSpace data.greenSpace data
        else [])

/-! ## Storage layer (`DatabaseStorage`) and route handlers (routes.ts)

The database is a record of append-only tables (one list per entity).
Inserts append; the drizzle bounding-box queries become a filter followed
by a sort on timestamp descending.  Wall-clock time is abstracted: the
stored `timestamp` is an integer instant, and the `now minus N hours`
cutoff computed by `getRecentEnvironmentalData` is passed in as a value. -/

/-- A stored livability score row (id, timestamp and the display-only
`location` label are not modelled). -/
structure StoredScore where
  latitude : ℚ
  longitude : ℚ
  airQualityScore : ℚ
  waterSecurityScore : ℚ
  greenSpaceScore : ℚ
  overallScore : ℚ
deriving DecidableEq

/-- A stored alert row: an `Alert` together with its row id. -/
structure StoredAlert where
  id : ℤ
  alert : Alert
deriving DecidableEq

/-- The database tables touched by the claims (the legacy `users` table
is unused here). -/
structure Database where
  airQualityData : List AirQualityData
  waterSecurityData : List WaterSecurityData
  greenSpaceData : List GreenSpaceData
  livabilityScores : List StoredScore
  environmentalAlerts : List StoredAlert
deriving DecidableEq

/-- The drizzle bounding-box predicate:
latitude in `[lat - radius, lat + radius]` and
longitude in `[lon - radius, lon + radius]`. -/
def withinBox (lat lon radius rowLat rowLon : ℚ) : Bool :=
  decide (lat - radius ≤ rowLat) && decide (rowLat ≤ lat + radius)
    && decide (lon - radius ≤ rowLon) && decide (rowLon ≤ lon + radius)

/-- `DatabaseStorage.getAirQualityDataByLocation`: bounding-box filter,
ordered by timestamp descending.  The source default `radius = 0.1` is
supplied at call sites. -/
def getAirQualityDataByLocation (rows : List AirQualityData)
    (lat lon radius : ℚ) : List AirQualityData :=
  (rows.filter fun r => withinBox lat lon radius r.latitude r.longitude).mergeSort
    fun a b => decide (b.timestamp ≤ a.timestamp)

/-- `DatabaseStorage.getWaterSecurityDataByLocation`. -/
def getWaterSecurityDataByLocation (rows : List WaterSecurityData)
    (lat lon radius : ℚ) : List WaterSecurityData :=
  (rows.filter fun r => withinBox lat lon radius r.latitude r.longitude).mergeSort
    fun a b => decide (b.timestamp ≤ a.timestamp)

/-- `DatabaseStorage.getGreenSpaceDataByLocation`. -/
def getGreenSpaceDataByLocation (rows : List GreenSpaceData)
    (lat lon radius : ℚ) : List GreenSpaceData :=
  (rows.filter fun r => withinBox lat lon radius r.latitude r.longitude).mergeSort
    fun a b => decide (b.timestamp ≤ a.timestamp)

/-- Return shape of `getRecentEnvironmentalData`. -/
structure RecentEnvData where
  airQuality : List AirQualityData
  waterSecurity : List WaterSecurityData
  greenSpace : List GreenSpaceData
deriving DecidableEq

/-- `DatabaseStorage.getRecentEnvironmentalData`: the three by-location
queries at the default radius 0.1, each filtered client-side to
timestamps at or after `cutoffTime` (in the source,
`cutoffTime = now - hours`). -/
def getRecentEnvironmentalData (db : Database) (lat lon : ℚ)
    (cutoffTime : ℤ) : RecentEnvData :=
  { airQuality :=
      (getAirQualityDataByLocation db.airQualityData lat lon (1/10)).filter
        fun d => decide (cutoffTime ≤ d.timestamp)
    waterSecurity :=
      (getWaterSecurityDataByLocation db.waterSecurityData lat lon (1/10)).filter
        fun d => decide (cutoffTime ≤ d.timestamp)
    greenSpace :=
      (getGreenSpaceDataByLocation db.greenSpaceData lat lon (1/10)).filter
        fun d => decide (cutoffTime ≤ d.timestamp) }

/-- Response of the livability route.  Coordinates reach the handler as
rationals, so the parse-failure 400 branch (`isNaN`) is outside this model;
the category and recommendation list attached to the 200 payload are kept
abstract by recording the `CategoryInfo`. -/
inductive LivabilityResponse where
  | notFound (error : String)
  | ok (result : LiveabilityResult) (category : CategoryInfo)

/-- The `GET /api/livability/:lat/:lon` handler from routes.ts: read the
last-24h window, answer 404 when any category is empty, otherwise average
each category (green space via `vegetationCoverage || ndvi * 100`),
compute the score, append it to the `livabilityScores` table, and answer
200 with result and category. -/
def livabilityHandler (db : Database) (lat lon : ℚ)
    (cutoffTime : ℤ) : LivabilityResponse × Database :=
  let envData := getRecentEnvironmentalData db lat lon cutoffTime
  if envData.airQuality.length = 0 ∨ envData.waterSecurity.length = 0
      ∨ envData.greenSpace.length = 0 then
    (.notFound "Insufficient environmental data for livability calculation", db)
  else
    let avgAirQuality :=
      (envData.airQuality.map fun d => d.aqi).sum / envData.airQuality.length
    let avgWaterStress :=
      (envData.waterSecurity.map fun d => d.waterStressLevel).sum
        / envData.waterSecurity.length
    let avgGreenSpace :=
      (envData.greenSpace.map fun d => jsOr d.vegetationCoverage (d.ndvi * 100)).sum
        / envData.greenSpace.length
    let livabilityResult := calculateLivabilityScore
      { airQuality := .fin avgAirQuality
        waterSecurity := .fin avgWaterStress
        greenSpace := .fin avgGreenSpace }
    let storedScore : StoredScore :=
      { latitude := lat
        longitude := lon
        airQualityScore := livabilityResult.airQualityScore
        waterSecurityScore := livabilityResult.waterSecurityScore
        greenSpaceScore := livabilityResult.greenSpaceScore
        overallScore := livabilityResult.overallScore }
    (.ok livabilityResult (getLivabilityCategory livabilityResult.overallScore),
     { db with livabilityScores := db.livabilityScores ++ [storedScore] })

/-- Response of the dismiss route (`success` / `message`). -/
structure DismissResponse where
  success : Bool
  message : String
deriving DecidableEq

/-- The `PATCH /api/alerts/:id/dismiss` handler from routes.ts: the source
notes that an update would require a storage method that does not exist
and simply answers success, issuing no storage operation. -/
def dismissAlertHandler (alertId : ℤ) (db : Database) :
    DismissResponse × Database :=
  (⟨true, "Alert dismissed"⟩, db)

/-- The green-space coverage as the specification words it: the
`vegetationCoverage` field whenever that field is present, else
`ndvi × 100`.  Stated for comparison with the code's `jsOr`-based
computation, which also falls back when the field is present but `0`. -/
def specVegCoverage (r : GreenSpaceData) : ℚ :=
  match r.vegetationCoverage with
  | some v => v
  | none => r.ndvi * 100

/-- A one-row-per-table sample database (AQI 160, water stress 50,
ndvi 0.5, all at the origin at instant 0), used to exercise the
livability handler on concrete data. -/
def sampleDb : Database :=
  { airQualityData := [⟨0, 0, 160, 0⟩]
    waterSecurityData := [⟨0, 0, 50, none, 0⟩]
    greenSpaceData := [⟨0, 0, 1/2, none, 0⟩]
    livabilityScores := []
    environmentalAlerts := [] }

/-! ## Theorems -/

/-- `normalizeAirQuality` on a finite AQI, with the reference thresholds
unfolded. -/
theorem normalizeAirQuality_fin (x : ℚ) :
    normalizeAirQuality (.fin x) =
      if x ≤ 0 then 100
      else if x ≤ 50 then 85
      else if x ≤ 100 then 60
      else if x ≤ 200 then 35
      else if x ≤ 300 then 15
      else 5 := by
  simp [normalizeAirQuality, JSNum.jle, referenceValues]

/-- C4: `calculateLivabilityScore` on metrics (airQuality 100,
waterSecurity 40, greenSpace 50) yields sub-scores 60/60/60 and overall
score round(0.40·60 + 0.35·60 + 0.25·60) = 60, and `getLivabilityCategory`
classifies 60 as "Moderate". -/
theorem C4_example_score :
    (calculateLivabilityScore ⟨.fin 100, .fin 40, .fin 50⟩).airQualityScore = 60 ∧
    (calculateLivabilityScore ⟨.fin 100, .fin 40, .fin 50⟩).waterSecurityScore = 60 ∧
    (calculateLivabilityScore ⟨.fin 100, .fin 40, .fin 50⟩).greenSpaceScore = 60 ∧
    (calculateLivabilityScore ⟨.fin 100, .fin 40, .fin 50⟩).overallScore
      = roundQ (0.40 * 60 + 0.35 * 60 + 0.25 * 60) ∧
    (calculateLivabilityScore ⟨.fin 100, .fin 40, .fin 50⟩).overallScore = 60 ∧
    (getLivabilityCategory 60).category = "Moderate" := by
  norm_num [calculateLivabilityScore, normalizeAirQuality, normalizeWaterSecurity,
    normalizeGreenSpace, JSNum.jle, JSNum.jge, referenceValues, weights, roundQ, jround,
    Rat.floor, getLivabilityCategory]

/-- C5: the three scorer weights sum to exactly 1, and the overall score
for metrics (airQuality 0, waterSecurity 0, greenSpace 100) is exactly 100. -/
theorem C5_weights_sum_and_perfect_score :
    weights.airQuality + weights.waterSecurity + weights.greenSpace = 1 ∧
    (calculateLivabilityScore ⟨.fin 0, .fin 0, .fin 100⟩).overallScore = 100 := by
  norm_num [calculateLivabilityScore, normalizeAirQuality, normalizeWaterSecurity,
    normalizeGreenSpace, JSNum.jle, JSNum.jge, referenceValues, weights, roundQ, jround,
    Rat.floor]

/-- C2 counterexample: the metric value −∞ is non-finite, yet the air
quality sub-score it produces is 100 — the best bucket value, not the
worst-case 5 the claim requires (−∞ satisfies the first comparison
`aqi <= 0` of the step function). -/
theorem C2_negInf_counterexample :
    (calculateLivabilityScore ⟨.negInf, .fin 50, .fin 50⟩).airQualityScore = 100 ∧
    (5 : ℚ) < 100 := by
  norm_num [calculateLivabilityScore, normalizeAirQuality, JSNum.jle,
    referenceValues, roundQ, jround, Rat.floor]

/-- C2 amended: a NaN metric is treated as worst case (5 for air quality,
10 for water security, 10 for green space), and so is the infinity on the
bad side of each comparison chain (+∞ for air quality and water security,
−∞ for green space); the opposite infinity instead yields the best score
100 (−∞ for the two `<=`-chains, +∞ for the `>=`-chain of green space). -/
theorem C2_nonfinite_normalization :
    (∀ w g : JSNum,
      (calculateLivabilityScore ⟨.nan, w, g⟩).airQualityScore = 5 ∧
      (calculateLivabilityScore ⟨.posInf, w, g⟩).airQualityScore = 5 ∧
      (calculateLivabilityScore ⟨.negInf, w, g⟩).airQualityScore = 100) ∧
    (∀ a g : JSNum,
      (calculateLivabilityScore ⟨a, .nan, g⟩).waterSecurityScore = 10 ∧
      (calculateLivabilityScore ⟨a, .posInf, g⟩).waterSecurityScore = 10 ∧
      (calculateLivabilityScore ⟨a, .negInf, g⟩).waterSecurityScore = 100) ∧
    (∀ a w : JSNum,
      (calculateLivabilityScore ⟨a, w, .nan⟩).greenSpaceScore = 10 ∧
      (calculateLivabilityScore ⟨a, w, .negInf⟩).greenSpaceScore = 10 ∧
      (calculateLivabilityScore ⟨a, w, .posInf⟩).greenSpaceScore = 100) := by
  refine ⟨fun w g => ?_, fun a g => ?_, fun a w => ?_⟩ <;>
    norm_num [calculateLivabilityScore, normalizeAirQuality, normalizeWaterSecurity,
      normalizeGreenSpace, JSNum.jle, JSNum.jge, referenceValues, roundQ, jround,
      Rat.floor]

/-- C6: `normalizeAirQuality` is monotonically non-increasing in the AQI,
and every output lies in {100, 85, 60, 35, 15, 5}. -/
theorem C6_normalizeAirQuality_antitone_range :
    (∀ a b : ℚ, a ≤ b →
      normalizeAirQuality (.fin b) ≤ normalizeAirQuality (.fin a)) ∧
    (∀ x : JSNum,
      normalizeAirQuality x = 100 ∨ normalizeAirQuality x = 85 ∨
      normalizeAirQuality x = 60 ∨ normalizeAirQuality x = 35 ∨
      normalizeAirQuality x = 15 ∨ normalizeAirQuality x = 5) := by
  constructor
  · intro a b hab
    rw [normalizeAirQuality_fin, normalizeAirQuality_fin]
    split_ifs <;> linarith
  · intro x
    cases x with
    | fin q => rw [normalizeAirQuality_fin]; split_ifs <;> simp
    | nan => simp [normalizeAirQuality, JSNum.jle]
    | posInf => simp [normalizeAirQuality, JSNum.jle]
    | negInf => simp [normalizeAirQuality, JSNum.jle]

/-- Witness for C6 at AQI inputs 30 ≤ 120. -/
theorem C6_normalizeAirQuality_antitone_range_witness :
    normalizeAirQuality (.fin 120) ≤ normalizeAirQuality (.fin 30) ∧
    (normalizeAirQuality (.fin 30) = 100 ∨ normalizeAirQuality (.fin 30) = 85 ∨
     normalizeAirQuality (.fin 30) = 60 ∨ normalizeAirQuality (.fin 30) = 35 ∨
     normalizeAirQuality (.fin 30) = 15 ∨ normalizeAirQuality (.fin 30) = 5) :=
  ⟨C6_normalizeAirQuality_antitone_range.1 30 120 (by norm_num),
   C6_normalizeAirQuality_antitone_range.2 (.fin 30)⟩

/-- C1 counterexample: for the reading with `ndvi = 0.5` and
`vegetationCoverage` present and equal to `0`, the coverage the claim
computes (`specVegCoverage`, the field itself) is `0 ≤ 15` and so the
claim demands a danger alert, but the code falls through the falsy `0`
to `ndvi × 100 = 50` and emits no alert at all. -/
theorem C1_present_zero_coverage_counterexample :
    specVegCoverage ⟨0, 0, 1/2, some 0, 0⟩ ≤ thresholds.greenSpace.danger ∧
    analyzeGreenSpace [⟨0, 0, 1/2, some 0, 0⟩]
      ⟨[], [], [⟨0, 0, 1/2, some 0, 0⟩], none, none⟩ = [] := by
  norm_num [specVegCoverage, thresholds, analyzeGreenSpace, jsOr]

/-- C1 amended: the Alert Evaluator computes coverage as
`vegetationCoverage` when that field is present *and non-zero* and as
`ndvi × 100` otherwise; it emits exactly one danger alert when the
computed coverage is ≤ 15, exactly one warning alert when it is in
(15, 30], and nothing otherwise. -/
theorem C1_green_space_alerts :
    ∀ (latest : GreenSpaceData) (rest : List GreenSpaceData)
      (ctx : EnvironmentalData),
      (jsOr latest.vegetationCoverage (latest.ndvi * 100) ≤ 15 →
        (analyzeGreenSpace (latest :: rest) ctx).map (fun a => a.type)
          = [AlertType.danger]) ∧
      (15 < jsOr latest.vegetationCoverage (latest.ndvi * 100) →
        jsOr latest.vegetationCoverage (latest.ndvi * 100) ≤ 30 →
        (analyzeGreenSpace (latest :: rest) ctx).map (fun a => a.type)
          = [AlertType.warning]) ∧
      (30 < jsOr latest.vegetationCoverage (latest.ndvi * 100) →
        analyzeGreenSpace (latest :: rest) ctx = []) := by
  intro latest rest ctx
  refine ⟨fun h => ?_, fun h1 h2 => ?_, fun h => ?_⟩
  · simp [analyzeGreenSpace, thresholds, h]
  · have h15 : ¬ jsOr latest.vegetationCoverage (latest.ndvi * 100) ≤ 15 := by linarith
    simp [analyzeGreenSpace, thresholds, h15, h2]
  · have h15 : ¬ jsOr latest.vegetationCoverage (latest.ndvi * 100) ≤ 15 := by linarith
    have h30 : ¬ jsOr latest.vegetationCoverage (latest.ndvi * 100) ≤ 30 := by linarith
    simp [analyzeGreenSpace, thresholds, h15, h30]

/-- Witness for C1 at the claim's own example: `ndvi = 0.1`,
`vegetationCoverage` absent — the computed coverage is 10 and a single
danger alert is emitted. -/
theorem C1_green_space_alerts_witness :
    jsOr (none : Option ℚ) ((1/10 : ℚ) * 100) = 10 ∧
    (analyzeGreenSpace [⟨0, 0, 1/10, none, 0⟩]
        ⟨[], [], [⟨0, 0, 1/10, none, 0⟩], none, none⟩).map (fun a => a.type)
      = [AlertType.danger] :=
  ⟨by norm_num [jsOr],
   (C1_green_space_alerts ⟨0, 0, 1/10, none, 0⟩ []
      ⟨[], [], [⟨0, 0, 1/10, none, 0⟩], none, none⟩).1 (by norm_num [jsOr])⟩

/-- C3: when the two latest AQI readings are 160 and 90,
`analyzeAirQuality` emits exactly two alerts — a danger level alert and a
separate rapid-deterioration warning; and in general, whenever at least
two readings exist and the most-recent minus second-most-recent AQI
exceeds 50, the rapid-deterioration warning is emitted independently of
the absolute-level alert. -/
theorem C3_air_quality_two_alerts :
    ∀ (latest previous : AirQualityData) (rest : List AirQualityData)
      (ctx : EnvironmentalData),
      (latest.aqi = 160 → previous.aqi = 90 →
        (analyzeAirQuality (latest :: previous :: rest) ctx).map
            (fun a => (a.type, a.title))
          = [(AlertType.danger, "Unhealthy Air Quality Detected"),
             (AlertType.warning, "Rapid Air Quality Deterioration")]) ∧
      (50 < latest.aqi - previous.aqi →
        ∃ a ∈ analyzeAirQuality (latest :: previous :: rest) ctx,
          a.type = AlertType.warning
          ∧ a.title = "Rapid Air Quality Deterioration") := by
  intro latest previous rest ctx
  constructor
  · intro h1 h2
    norm_num [analyzeAirQuality, thresholds, h1, h2]
  · intro h
    simp only [analyzeAirQuality, List.mem_append]
    exact ⟨_, Or.inr (by rw [if_pos h]; exact List.mem_singleton_self _), rfl, rfl⟩

/-- Witness for C3 at readings with AQI values [160, 90]. -/
theorem C3_air_quality_two_alerts_witness :
    (analyzeAirQuality [⟨0, 0, 160, 0⟩, ⟨0, 0, 90, 0⟩]
        ⟨[⟨0, 0, 160, 0⟩, ⟨0, 0, 90, 0⟩], [], [], none, none⟩).map
        (fun a => (a.type, a.title))
      = [(AlertType.danger, "Unhealthy Air Quality Detected"),
         (AlertType.warning, "Rapid Air Quality Deterioration")] ∧
    (∃ a ∈ analyzeAirQuality [⟨0, 0, 160, 0⟩, ⟨0, 0, 90, 0⟩]
        ⟨[⟨0, 0, 160, 0⟩, ⟨0, 0, 90, 0⟩], [], [], none, none⟩,
      a.type = AlertType.warning
      ∧ a.title = "Rapid Air Quality Deterioration") :=
  ⟨(C3_air_quality_two_alerts ⟨0, 0, 160, 0⟩ ⟨0, 0, 90, 0⟩ []
      ⟨[⟨0, 0, 160, 0⟩, ⟨0, 0, 90, 0⟩], [], [], none, none⟩).1 rfl rfl,
   (C3_air_quality_two_alerts ⟨0, 0, 160, 0⟩ ⟨0, 0, 90, 0⟩ []
      ⟨[⟨0, 0, 160, 0⟩, ⟨0, 0, 90, 0⟩], [], [], none, none⟩).2 (by norm_num)⟩

/-- Bounds of the capped severity formulas: `min 100 t` lies in `[0, 100]`
whenever the uncapped value `t` is non-negative. -/
theorem min100_bounds {t : ℚ} (ht : 0 ≤ t) :
    0 ≤ min 100 t ∧ min 100 t ≤ 100 :=
  ⟨le_min (by norm_num) ht, min_le_left _ _⟩

/-- Every alert produced by `analyzeAirQuality` is active, actionable,
and has severity in `[0, 100]`. -/
theorem analyzeAirQuality_mem_props {airData : List AirQualityData}
    {ctx : EnvironmentalData} {a : Alert}
    (h : a ∈ analyzeAirQuality airData ctx) :
    a.isActive = true ∧ a.actionable = true
      ∧ 0 ≤ a.severity ∧ a.severity ≤ 100 := by
  match airData with
  | [] => simp [analyzeAirQuality] at h
  | latest :: rest =>
    simp only [analyzeAirQuality, thresholds, List.mem_append] at h
    rcases h with h | h
    · split_ifs at h with h1 h2
      · simp only [List.mem_singleton] at h
        subst h
        exact ⟨rfl, rfl,
          (min100_bounds (mul_nonneg (div_nonneg (by linarith) (by norm_num))
            (by norm_num))).1,
          (min100_bounds (mul_nonneg (div_nonneg (by linarith) (by norm_num))
            (by norm_num))).2⟩
      · simp only [List.mem_singleton] at h
        subst h
        exact ⟨rfl, rfl,
          (min100_bounds (mul_nonneg (div_nonneg (by linarith) (by norm_num))
            (by norm_num))).1,
          (min100_bounds (mul_nonneg (div_nonneg (by linarith) (by norm_num))
            (by norm_num))).2⟩
      · simp at h
    · rcases rest with _ | ⟨previous, rest2⟩
      · simp at h
      · simp only at h
        split_ifs at h with h1
        · simp only [List.mem_singleton] at h
          subst h
          exact ⟨rfl, rfl,
            (min100_bounds (mul_nonneg (div_nonneg (by linarith) (by norm_num))
              (by norm_num))).1,
            (min100_bounds (mul_nonneg (div_nonneg (by linarith) (by norm_num))
              (by norm_num))).2⟩
        · simp at h

/-- Every alert produced by `analyzeWaterSecurity` is active, actionable,
and has severity in `[0, 100]`. -/
theorem analyzeWaterSecurity_mem_props {waterData : List WaterSecurityData}
    {ctx : EnvironmentalData} {a : Alert}
    (h : a ∈ analyzeWaterSecurity waterData ctx) :
    a.isActive = true ∧ a.actionable = true
      ∧ 0 ≤ a.severity ∧ a.severity ≤ 100 := by
  match waterData with
  | [] => simp [analyzeWaterSecurity] at h
  | latest :: rest =>
    simp only [analyzeWaterSecurity, thresholds, List.mem_append] at h
    rcases h with h | h
    · split_ifs at h with h1 h2
      · simp only [List.mem_singleton] at h
        subst h
        exact ⟨rfl, rfl,
          (min100_bounds (mul_nonneg (div_nonneg (by linarith) (by norm_num))
            (by norm_num))).1,
          (min100_bounds (mul_nonneg (div_nonneg (by linarith) (by norm_num))
            (by norm_num))).2⟩
      · simp only [List.mem_singleton] at h
        subst h
        exact ⟨rfl, rfl,
          (min100_bounds (mul_nonneg (div_nonneg (by linarith) (by norm_num))
            (by norm_num))).1,
          (min100_bounds (mul_nonneg (div_nonneg (by linarith) (by norm_num))
            (by norm_num))).2⟩
      · simp at h
    · rcases hfr : latest.floodRisk with _ | fr
      · rw [hfr] at h
        simp at h
      · rw [hfr] at h
        dsimp only at h
        split_ifs at h with h1 h2
        · simp only [List.mem_singleton] at h
          subst h
          exact ⟨rfl, rfl,
            (min100_bounds (mul_nonneg (div_nonneg (by linarith [h1.2])
              (by norm_num)) (by norm_num))).1,
            (min100_bounds (mul_nonneg (div_nonneg (by linarith [h1.2])
              (by norm_num)) (by norm_num))).2⟩
        · simp only [List.mem_singleton] at h
          subst h
          exact ⟨rfl, rfl,
            (min100_bounds (mul_nonneg (div_nonneg (by linarith [h2.2])
              (by norm_num)) (by norm_num))).1,
            (min100_bounds (mul_nonneg (div_nonneg (by linarith [h2.2])
              (by norm_num)) (by norm_num))).2⟩
        · simp at h

/-- Every alert produced by `analyzeGreenSpace` is active, actionable,
and has severity in `[0, 100]`. -/
theorem analyzeGreenSpace_mem_props {greenData : List GreenSpaceData}
    {ctx : EnvironmentalData} {a : Alert}
    (h : a ∈ analyzeGreenSpace greenData ctx) :
    a.isActive = true ∧ a.actionable = true
      ∧ 0 ≤ a.severity ∧ a.severity ≤ 100 := by
  match greenData with
  | [] => simp [analyzeGreenSpace] at h
  | latest :: rest =>
    simp only [analyzeGreenSpace, thresholds] at h
    split_ifs at h with h1 h2
    · simp only [List.mem_singleton] at h
      subst h
      exact ⟨rfl, rfl,
        (min100_bounds (mul_nonneg (div_nonneg (by linarith) (by norm_num))
          (by norm_num))).1,
        (min100_bounds (mul_nonneg (div_nonneg (by linarith) (by norm_num))
          (by norm_num))).2⟩
    · simp only [List.mem_singleton] at h
      subst h
      exact ⟨rfl, rfl,
        (min100_bounds (mul_nonneg (div_nonneg (by linarith) (by norm_num))
          (by norm_num))).1,
        (min100_bounds (mul_nonneg (div_nonneg (by linarith) (by norm_num))
          (by norm_num))).2⟩
    · simp at h

/-- C10: every alert record produced by `generateAlerts`, for any input
environmental data, has `isActive = true`, `actionable = true`, and a
severity in the closed interval `[0, 100]`. -/
theorem C10_generated_alert_invariants :
    ∀ (data : EnvironmentalData) (a : Alert), a ∈ generateAlerts data →
      a.isActive = true ∧ a.actionable = true
        ∧ 0 ≤ a.severity ∧ a.severity ≤ 100 := by
  intro data a h
  simp only [generateAlerts, List.mem_append] at h
  rcases h with (h | h) | h
  · by_cases hg : 0 < data.airQuality.length
    · rw [if_pos hg] at h
      exact analyzeAirQuality_mem_props h
    · rw [if_neg hg] at h
      simp at h
  · by_cases hg : 0 < data.waterSecurity.length
    · rw [if_pos hg] at h
      exact analyzeWaterSecurity_mem_props h
    · rw [if_neg hg] at h
      simp at h
  · by_cases hg : 0 < data.greenSpace.length
    · rw [if_pos hg] at h
      exact analyzeGreenSpace_mem_props h
    · rw [if_neg hg] at h
      simp at h

/-- Witness for C10 on the danger alert generated by a single air-quality
reading with AQI 160. -/
theorem C10_generated_alert_invariants_witness :
    (⟨AlertType.danger, AlertCategory.air_quality,
        "Unhealthy Air Quality Detected", 0, 0, 224/3, true, true⟩
      : Alert).isActive = true ∧
    (⟨AlertType.danger, AlertCategory.air_quality,
        "Unhealthy Air Quality Detected", 0, 0, 224/3, true, true⟩
      : Alert).actionable = true ∧
    0 ≤ (⟨AlertType.danger, AlertCategory.air_quality,
          "Unhealthy Air Quality Detected", 0, 0, 224/3, true, true⟩
        : Alert).severity ∧
    (⟨AlertType.danger, AlertCategory.air_quality,
        "Unhealthy Air Quality Detected", 0, 0, 224/3, true, true⟩
      : Alert).severity ≤ 100 :=
  C10_generated_alert_invariants ⟨[⟨0, 0, 160, 0⟩], [], [], none, none⟩ _
    (by norm_num [generateAlerts, analyzeAirQuality, thresholds, jsOr, min_def])

/-- C8: the alert-dismiss handler answers success while leaving the whole
database — in particular the alert table — unchanged. -/
theorem C8_dismiss_is_noop :
    ∀ (alertId : ℤ) (db : Database),
      (dismissAlertHandler alertId db).1.success = true ∧
      (dismissAlertHandler alertId db).2 = db ∧
      (dismissAlertHandler alertId db).2.environmentalAlerts
        = db.environmentalAlerts :=
  fun _ _ => ⟨rfl, rfl, rfl⟩

/-- C9: the bounding-box query returns exactly the stored rows whose
coordinates lie in `[lat − radius, lat + radius] × [lon − radius, lon + radius]`
(as a permutation of the filtered table, and element-wise), ordered by
timestamp descending; for `lat = lon = 10`, `radius = 0.1` the box is
`[9.9, 10.1] × [9.9, 10.1]`. -/
theorem C9_bounding_box_query :
    ∀ (rows : List AirQualityData) (lat lon radius : ℚ),
      (getAirQualityDataByLocation rows lat lon radius).Perm
        (rows.filter fun r => withinBox lat lon radius r.latitude r.longitude) ∧
      (∀ r : AirQualityData,
        r ∈ getAirQualityDataByLocation rows lat lon radius ↔
          r ∈ rows ∧ lat - radius ≤ r.latitude ∧ r.latitude ≤ lat + radius
            ∧ lon - radius ≤ r.longitude ∧ r.longitude ≤ lon + radius) ∧
      (getAirQualityDataByLocation rows lat lon radius).Pairwise
        (fun a b => b.timestamp ≤ a.timestamp) ∧
      (∀ r : AirQualityData,
        r ∈ getAirQualityDataByLocation rows 10 10 (1/10) ↔
          r ∈ rows ∧ (99/10 : ℚ) ≤ r.latitude ∧ r.latitude ≤ 101/10
            ∧ (99/10 : ℚ) ≤ r.longitude ∧ r.longitude ≤ 101/10) := by
  intro rows lat lon radius
  have hmem : ∀ (la lo ra : ℚ) (r : AirQualityData),
      r ∈ getAirQualityDataByLocation rows la lo ra ↔
        r ∈ rows ∧ la - ra ≤ r.latitude ∧ r.latitude ≤ la + ra
          ∧ lo - ra ≤ r.longitude ∧ r.longitude ≤ lo + ra := by
    intro la lo ra r
    simp [getAirQualityDataByLocation, List.mem_filter, withinBox, and_assoc]
  refine ⟨List.mergeSort_perm _ _, hmem lat lon radius, ?_, ?_⟩
  · have hs := @List.sorted_mergeSort AirQualityData
      (fun a b => decide (b.timestamp ≤ a.timestamp))
      (fun a b c h1 h2 => by
        simp only [decide_eq_true_eq] at h1 h2 ⊢
        exact le_trans h2 h1)
      (fun a b => by
        simp only [Bool.or_eq_true, decide_eq_true_eq]
        exact le_total _ _)
      (rows.filter fun r => withinBox lat lon radius r.latitude r.longitude)
    exact hs.imp fun hab => by simpa using hab
  · intro r
    rw [hmem 10 10 (1/10) r]
    constructor
    · rintro ⟨h1, h2, h3, h4, h5⟩
      exact ⟨h1, by linarith, by linarith, by linarith, by linarith⟩
    · rintro ⟨h1, h2, h3, h4, h5⟩
      exact ⟨h1, by linarith, by linarith, by linarith, by linarith⟩

/-- C7: if any of the three reading categories is empty within the
last-24-hours window, the livability endpoint answers the
insufficient-data 404 error and leaves the database unchanged; when all
three categories are non-empty it stores exactly one new livability score
and answers 200 with a result and category. -/
theorem C7_livability_insufficient_data :
    ∀ (db : Database) (lat lon : ℚ) (cutoff : ℤ),
      (((getRecentEnvironmentalData db lat lon cutoff).airQuality = []
          ∨ (getRecentEnvironmentalData db lat lon cutoff).waterSecurity = []
          ∨ (getRecentEnvironmentalData db lat lon cutoff).greenSpace = []) →
        (livabilityHandler db lat lon cutoff).1
            = .notFound "Insufficient environmental data for livability calculation"
          ∧ (livabilityHandler db lat lon cutoff).2 = db) ∧
      ((getRecentEnvironmentalData db lat lon cutoff).airQuality ≠ []
          ∧ (getRecentEnvironmentalData db lat lon cutoff).waterSecurity ≠ []
          ∧ (getRecentEnvironmentalData db lat lon cutoff).greenSpace ≠ [] →
        ∃ s : StoredScore,
          (livabilityHandler db lat lon cutoff).2
              = { db with livabilityScores := db.livabilityScores ++ [s] }
            ∧ ∃ r c, (livabilityHandler db lat lon cutoff).1 = .ok r c) := by
  intro db lat lon cutoff
  constructor
  · intro h
    have hcond : (getRecentEnvironmentalData db lat lon cutoff).airQuality.length = 0
        ∨ (getRecentEnvironmentalData db lat lon cutoff).waterSecurity.length = 0
        ∨ (getRecentEnvironmentalData db lat lon cutoff).greenSpace.length = 0 := by
      rcases h with h | h | h <;> simp [h]
    simp only [livabilityHandler]
    rw [if_pos hcond]
    exact ⟨rfl, rfl⟩
  · rintro ⟨h1, h2, h3⟩
    have hcond : ¬((getRecentEnvironmentalData db lat lon cutoff).airQuality.length = 0
        ∨ (getRecentEnvironmentalData db lat lon cutoff).waterSecurity.length = 0
        ∨ (getRecentEnvironmentalData db lat lon cutoff).greenSpace.length = 0) := by
      simp only [List.length_eq_zero]
      tauto
    simp only [livabilityHandler]
    rw [if_neg hcond]
    exact ⟨_, rfl, _, _, rfl⟩

/-- Witness for C7: on `sampleDb` (one reading per category within the
window) the handler stores exactly one score and answers 200. -/
theorem C7_livability_insufficient_data_witness :
    ∃ s : StoredScore,
      (livabilityHandler sampleDb 0 0 0).2
          = { sampleDb with livabilityScores := sampleDb.livabilityScores ++ [s] }
        ∧ ∃ r c, (livabilityHandler sampleDb 0 0 0).1 = .ok r c :=
  (C7_livability_insufficient_data sampleDb 0 0 0).2
    ⟨by norm_num [getRecentEnvironmentalData, getAirQualityDataByLocation,
        withinBox, sampleDb, List.filter],
     by norm_num [getRecentEnvironmentalData, getWaterSecurityDataByLocation,
        withinBox, sampleDb, List.filter],
     by norm_num [getRecentEnvironmentalData, getGreenSpaceDataByLocation,
        withinBox, sampleDb, List.filter]⟩

end TerraInsight
